import Mathlib

/-!
Shallow embedding of `src/audioldm/pipeline.py` (AudioLDM generation
pipeline).  Python integers are modelled as `Int`, Python floats as exact
rationals `ℚ` (every numeric literal appearing in the file, e.g. `25.6`,
is exactly representable), `int(x)` as truncation toward zero, and torch
tensors by their shapes (`List Nat`), which is all the pipeline logic
inspects.  External collaborators (`read_wav_file`, `wav_to_fbank`,
`LatentDiffusion` internals, `DDIMSampler` internals) are modelled as
oracle inputs: the orchestrators record the arguments they pass to them
in a trace structure, and the values those collaborators return are
extra parameters of the embedding.
-/

namespace AudioLDM

/-- Python `int(x)` on a real number: truncation toward zero. -/
def pyTrunc (q : ℚ) : Int := if 0 ≤ q then ⌊q⌋ else ⌈q⌉

/-- Errors the batch builder can raise.  `negDimError` models the torch
`RuntimeError` raised by `torch.zeros` on a negative dimension,
`expandError` the torch `RuntimeError` raised by `Tensor.expand` on an
incompatible target shape, and `assertError` a Python `AssertionError`. -/
inductive PipeError
  | negDimError
  | expandError
  | assertError
deriving DecidableEq, Repr

/-- `torch.zeros(sizes)`: succeeds with the given shape unless some
requested dimension is negative. -/
def zerosShape : List Int → Option (List Nat)
  | [] => some []
  | d :: ds => if d < 0 then none else (zerosShape ds).map (fun r => d.toNat :: r)

/-- One aligned dimension of `Tensor.expand`: `-1` keeps the original
size, otherwise the target must be non-negative and either equal to the
original size or expanding a size-1 dimension. -/
def expandDim (orig : Nat) (target : Int) : Option Nat :=
  if target = -1 then some orig
  else if target < 0 then none
  else if orig = 1 ∨ (orig : Int) = target then some target.toNat
  else none

/-- A dimension of `Tensor.expand` prepended in front of the original
shape: `-1` (and any negative size) is not allowed for a new dimension. -/
def newDim (target : Int) : Option Nat :=
  if target < 0 then none else some target.toNat

/-- New leading dimensions of `Tensor.expand`. -/
def newDims : List Int → Option (List Nat)
  | [] => some []
  | t :: ts => (newDim t).bind (fun d => (newDims ts).map (fun ds => d :: ds))

/-- Dimensions of `Tensor.expand` aligned with the original shape. -/
def expandDims : List Nat → List Int → Option (List Nat)
  | [], [] => some []
  | s :: ss, t :: ts =>
    (expandDim s t).bind (fun d => (expandDims ss ts).map (fun ds => d :: ds))
  | _, _ => none

/-- `Tensor.expand`: the target size list must have at least as many
dimensions as the tensor; extra leading target dimensions are new, the
rest align with the original shape from the right. -/
def expand (shape : List Nat) (sizes : List Int) : Option (List Nat) :=
  if shape.length ≤ sizes.length then
    (newDims (sizes.take (sizes.length - shape.length))).bind (fun n =>
      (expandDims shape (sizes.drop (sizes.length - shape.length))).map
        (fun a => n ++ a))
  else none

/-- The batch tuple built by `make_batch_for_text_to_audio`: tensors are
represented by their shapes, the third (`None`) slot is omitted. -/
structure Batch where
  fbank : List Nat
  stft : List Nat
  fname : List String
  waveform : List Nat
  text : List String
deriving DecidableEq, Repr

/-- The `fbank` branch of `make_batch_for_text_to_audio`: a zero
placeholder when absent, otherwise `expand(batchsize, 1024, 64)`
followed by `assert fbank.size(0) == batchsize`. -/
def fbankPart (fbank : Option (List Nat)) (batchsize : Int) :
    Except PipeError (List Nat) :=
  match fbank with
  | none =>
    match zerosShape [batchsize, 1024, 64] with
    | some r => .ok r
    | none => .error .negDimError
  | some s =>
    match expand s [batchsize, 1024, 64] with
    | none => .error .expandError
    | some r => if (r.headD 0 : Int) = batchsize then .ok r else .error .assertError

/-- The `stft` placeholder of `make_batch_for_text_to_audio`. -/
def stftPart (batchsize : Int) : Except PipeError (List Nat) :=
  match zerosShape [batchsize, 1024, 512] with
  | some r => .ok r
  | none => .error .negDimError

/-- The `waveform` branch of `make_batch_for_text_to_audio`: a zero
placeholder when absent, otherwise `expand(batchsize, -1)` followed by
`assert waveform.size(0) == batchsize`. -/
def wavePart (waveform : Option (List Nat)) (batchsize : Int) :
    Except PipeError (List Nat) :=
  match waveform with
  | none =>
    match zerosShape [batchsize, 160000] with
    | some r => .ok r
    | none => .error .negDimError
  | some s =>
    match expand s [batchsize, -1] with
    | none => .error .expandError
    | some r => if (r.headD 0 : Int) = batchsize then .ok r else .error .assertError

/-- `make_batch_for_text_to_audio(text, waveform, fbank, batchsize)`.
The boolean of the result records whether the `batchsize < 1` warning
was printed; the `Except` value is the built batch or the first error
raised (fbank branch, then stft, then waveform, as in the source). -/
def make_batch_for_text_to_audio (text : String) (waveform fbank : Option (List Nat))
    (batchsize : Int) : Bool × Except PipeError Batch :=
  (batchsize < 1,
    match fbankPart fbank batchsize with
    | .error e => .error e
    | .ok fb =>
      match stftPart batchsize with
      | .error e => .error e
      | .ok st =>
        match wavePart waveform batchsize with
        | .error e => .error e
        | .ok wv =>
          .ok { fbank := fb, stft := st,
                fname := List.replicate batchsize.toNat "",
                waveform := wv,
                text := List.replicate batchsize.toNat text })

/-- `duration_to_latent_t_size(duration) = int(duration * 25.6)`. -/
def duration_to_latent_t_size (duration : ℚ) : Int :=
  pyTrunc (duration * 25.6)

/-- The fields of `latent_diffusion.cond_stage_model` the pipeline
touches, plus an opaque remainder `γ` standing for all other state. -/
structure CondStageModel (γ : Type) where
  embed_mode : String
  csm_rest : γ
deriving DecidableEq, Repr

/-- The fields of the `latent_diffusion` model object the pipeline
touches, plus an opaque remainder `δ` standing for all other state. -/
structure Model (γ δ : Type) where
  cond_stage_key : String
  cond_stage_model : CondStageModel γ
  latent_t_size : Int
  model_rest : δ
deriving DecidableEq, Repr

/-- `set_cond_audio(latent_diffusion)`. -/
def set_cond_audio {γ δ : Type} (m : Model γ δ) : Model γ δ :=
  { m with cond_stage_key := "waveform",
           cond_stage_model := { m.cond_stage_model with embed_mode := "audio" } }

/-- `set_cond_text(latent_diffusion)`. -/
def set_cond_text {γ δ : Type} (m : Model γ δ) : Model γ δ :=
  { m with cond_stage_key := "text",
           cond_stage_model := { m.cond_stage_model with embed_mode := "text" } }

/-- Arguments the `text_to_audio` orchestrator passes to the external
`latent_diffusion.generate_sample`. -/
structure GenerateSampleArgs where
  batch : Batch
  guidance_scale : ℚ
  ddim_steps : Int
  n_candidate : Int
  duration : ℚ
deriving DecidableEq, Repr

/-- Trace of the external calls made by `text_to_audio`: the seed passed
to `seed_everything`, the target length argument of `read_wav_file` when
an audio file is given, and the `generate_sample` arguments. -/
structure TTATrace where
  seed : Int
  readWavTarget : Option Int
  sample : GenerateSampleArgs
deriving DecidableEq, Repr

/-- `text_to_audio`.  `readWavShape` is the oracle shape returned by the
external `read_wav_file` when an audio path is supplied.  Returns the
model state at exit (the source mutates it in place) and either the
trace of a completed call or the error raised by the batch builder.
The `config` parameter is never read by the source. -/
def text_to_audio {γ δ : Type} (m : Model γ δ) (text : String)
    (original_audio_file_path : Option String) (readWavShape : List Nat)
    (seed : Int) (ddim_steps : Int) (duration : ℚ) (batchsize : Int)
    (guidance_scale : ℚ) (n_candidate_gen_per_text : Int)
    (config : Option String) :
    Model γ δ × Except PipeError TTATrace :=
  let waveform : Option (List Nat) :=
    original_audio_file_path.map (fun _ => readWavShape)
  match (make_batch_for_text_to_audio text waveform none batchsize).2 with
  | .error e => (m, .error e)
  | .ok batch =>
    let m1 := { m with latent_t_size := duration_to_latent_t_size duration }
    let m2 := match original_audio_file_path with
      | some _ => set_cond_audio m1
      | none => set_cond_text m1
    (m2, .ok
      { seed := seed,
        readWavTarget :=
          original_audio_file_path.map (fun _ => pyTrunc (duration * 102.4) * 160),
        sample :=
          { batch := batch, guidance_scale := guidance_scale,
            ddim_steps := ddim_steps, n_candidate := n_candidate_gen_per_text,
            duration := duration } })

/-- Trace of the external calls made by `style_transfer`: seed, the
`target_length` passed to `wav_to_fbank`, the schedule arguments, the
unconditional condition (`none` when the source leaves `uc = None`,
otherwise the batchsize passed to `get_unconditional_condition`), the
number of prompts passed to `get_learned_conditioning`, the timestep
list passed to `stochastic_encode`, and the `decode` arguments. -/
structure StyleTrace where
  seed : Int
  melTarget : Int
  schedule_steps : Int
  schedule_eta : ℚ
  uc : Option Int
  cond_prompts : List String
  encode_ts : List Int
  decode_t : Int
  decode_guidance : ℚ
  decode_uc : Option Int
deriving DecidableEq, Repr

/-- `style_transfer`.  The audio path is mandatory in the source; the
mel produced by the external `wav_to_fbank` and the latents produced by
the external encoder and sampler are opaque, so only the arguments the
source computes for them are recorded.  Always completes (the batch
builder is not used here). -/
def style_transfer {γ δ : Type} (m : Model γ δ) (text : String)
    (original_audio_file_path : String) (transfer_strength : ℚ)
    (seed : Int) (duration : ℚ) (batchsize : Int) (guidance_scale : ℚ)
    (ddim_steps : Int) (config : Option String) :
    Model γ δ × StyleTrace :=
  let m1 := set_cond_text m
  let m2 := { m1 with latent_t_size := duration_to_latent_t_size duration,
                      cond_stage_model :=
                        { m1.cond_stage_model with embed_mode := "text" } }
  let t_enc := pyTrunc (transfer_strength * ddim_steps)
  let uc : Option Int := if guidance_scale ≠ 1 then some batchsize else none
  (m2,
    { seed := seed,
      melTarget := pyTrunc (duration * 102.4),
      schedule_steps := ddim_steps,
      schedule_eta := 1,
      uc := uc,
      cond_prompts := List.replicate batchsize.toNat text,
      encode_ts := List.replicate batchsize.toNat t_enc,
      decode_t := t_enc,
      decode_guidance := guidance_scale,
      decode_uc := uc })

/-- Arguments the `super_resolution_and_inpainting` orchestrator passes
to the external `latent_diffusion.generate_sample_masked`. -/
structure MaskedSampleArgs where
  batch : Batch
  guidance_scale : ℚ
  ddim_steps : Int
  n_candidate : Int
  duration : ℚ
  time_mask : ℚ × ℚ
  freq_mask : ℚ × ℚ
deriving DecidableEq, Repr

/-- Trace of the external calls made by `super_resolution_and_inpainting`. -/
structure SRTrace where
  seed : Int
  melTarget : Int
  sample : MaskedSampleArgs
deriving DecidableEq, Repr

/-- `super_resolution_and_inpainting`.  `melShape` is the oracle shape
of the mel returned by the external `wav_to_fbank`; the source passes
`mel[None, ...]` (shape `1 :: melShape`) as the `fbank` argument of the
batch builder.  The model's `latent_t_size` assignment is commented out
in the source; `set_cond_text` runs only after the batch builder
succeeds. -/
def super_resolution_and_inpainting {γ δ : Type} (m : Model γ δ) (text : String)
    (original_audio_file_path : Option String) (melShape : List Nat)
    (seed : Int) (ddim_steps : Int) (duration : ℚ) (batchsize : Int)
    (guidance_scale : ℚ) (n_candidate_gen_per_text : Int)
    (time_mask_start_and_end : ℚ × ℚ) (freq_mask_start_and_end : ℚ × ℚ)
    (config : Option String) :
    Model γ δ × Except PipeError SRTrace :=
  match (make_batch_for_text_to_audio text none (some (1 :: melShape)) batchsize).2 with
  | .error e => (m, .error e)
  | .ok batch =>
    let m1 := set_cond_text m
    (m1, .ok
      { seed := seed,
        melTarget := pyTrunc (duration * 102.4),
        sample :=
          { batch := batch, guidance_scale := guidance_scale,
            ddim_steps := ddim_steps, n_candidate := n_candidate_gen_per_text,
            duration := duration,
            time_mask := time_mask_start_and_end,
            freq_mask := freq_mask_start_and_end } })

/-- Whether a provided `fbank` argument can be broadcast by
`Tensor.expand` to `(batchsize, 1024, 64)`. -/
def fbankBroadcastable (fbank : Option (List Nat)) (batchsize : Int) : Bool :=
  match fbank with
  | none => true
  | some s => (expand s [batchsize, 1024, 64]).isSome

/-- Whether a provided `waveform` argument can be broadcast by
`Tensor.expand` to `(batchsize, -1)`. -/
def waveBroadcastable (waveform : Option (List Nat)) (batchsize : Int) : Bool :=
  match waveform with
  | none => true
  | some s => (expand s [batchsize, -1]).isSome

/-- A minimal concrete model instance used to exercise the entry points
on closed inputs. -/
def M0 : Model Unit Unit :=
  { cond_stage_key := "text",
    cond_stage_model := { embed_mode := "text", csm_rest := () },
    latent_t_size := 0, model_rest := () }

end AudioLDM

namespace AudioLDM

example : expand [2, 64] [3, 1024, 64] = none := by decide

example : expand [1024, 64] [3, 1024, 64] = some [3, 1024, 64] := by decide

example : expand [1, 400] [5, -1] = some [5, 400] := by decide

example : pyTrunc (-64/5) = -12 := by
  unfold pyTrunc
  rw [if_neg (by norm_num), Int.ceil_eq_iff] <;> norm_num

example : duration_to_latent_t_size 10 = 256 := by
  unfold duration_to_latent_t_size pyTrunc
  rw [if_pos (by norm_num)]
  norm_num

theorem pyTrunc_of_nonneg (q : ℚ) (h : 0 ≤ q) : pyTrunc q = ⌊q⌋ := if_pos h

theorem pyTrunc_of_neg (q : ℚ) (h : q < 0) : pyTrunc q = ⌈q⌉ := if_neg (not_le.mpr h)

theorem zerosShape_three (b x y : Int) (hb : 0 ≤ b) (hx : 0 ≤ x) (hy : 0 ≤ y) :
    zerosShape [b, x, y] = some [b.toNat, x.toNat, y.toNat] := by
  simp [zerosShape, not_lt.mpr hb, not_lt.mpr hx, not_lt.mpr hy]

theorem zerosShape_two (b x : Int) (hb : 0 ≤ b) (hx : 0 ≤ x) :
    zerosShape [b, x] = some [b.toNat, x.toNat] := by
  simp [zerosShape, not_lt.mpr hb, not_lt.mpr hx]

theorem zerosShape_neg_head (b : Int) (hb : b < 0) (ds : List Int) :
    zerosShape (b :: ds) = none := by
  simp [zerosShape, hb]

theorem expandDim_nonneg (s0 : Nat) (b : Int) (d : Nat) (hb : 0 ≤ b)
    (h : expandDim s0 b = some d) : d = b.toNat := by
  unfold expandDim at h
  rw [if_neg (by omega), if_neg (by omega)] at h
  by_cases hc : s0 = 1 ∨ (s0 : Int) = b
  · rw [if_pos hc] at h
    exact (Option.some_inj.mp h).symm
  · rw [if_neg hc] at h
    exact absurd h (by simp)

theorem expand_head (s : List Nat) (b : Int) (ts : List Int) (r : List Nat)
    (hb : 0 ≤ b) (h : expand s (b :: ts) = some r) : r.head? = some b.toNat := by
  unfold expand at h
  by_cases hl : s.length ≤ (b :: ts).length
  · rw [if_pos hl] at h
    simp only [Option.bind_eq_some, Option.map_eq_some'] at h
    obtain ⟨n, hn, a, ha, hr⟩ := h
    cases hkk : (b :: ts).length - s.length with
    | zero =>
      rw [hkk] at hn ha
      rcases s with _ | ⟨s0, s1⟩
      · simp at hkk
      · simp only [List.take_zero, List.drop_zero, newDims] at hn ha
        obtain rfl : n = [] := (Option.some_inj.mp hn).symm
        simp only [expandDims, Option.bind_eq_some, Option.map_eq_some'] at ha
        obtain ⟨d, hd, ds, _, hcons⟩ := ha
        rw [← hr, ← hcons, expandDim_nonneg s0 b d hb hd]
        rfl
    | succ k =>
      rw [hkk] at hn
      rw [List.take_succ_cons] at hn
      simp only [newDims, newDim, if_neg (not_lt.mpr hb), Option.bind_eq_some,
        Option.map_eq_some', Option.some.injEq] at hn
      obtain ⟨ds, hdeq, a2, _, hcons⟩ := hn
      rw [← hr, ← hcons]
      subst hdeq
      rfl
  · rw [if_neg hl] at h
    exact absurd h (by simp)

theorem fbankPart_none (b : Int) (hb : 0 ≤ b) :
    fbankPart none b = .ok [b.toNat, 1024, 64] := by
  unfold fbankPart
  dsimp only
  rw [zerosShape_three b 1024 64 hb (by norm_num) (by norm_num)]
  rfl

theorem stftPart_nonneg (b : Int) (hb : 0 ≤ b) :
    stftPart b = .ok [b.toNat, 1024, 512] := by
  unfold stftPart
  rw [zerosShape_three b 1024 512 hb (by norm_num) (by norm_num)]
  rfl

theorem wavePart_none (b : Int) (hb : 0 ≤ b) :
    wavePart none b = .ok [b.toNat, 160000] := by
  unfold wavePart
  dsimp only
  rw [zerosShape_two b 160000 hb (by norm_num)]
  rfl

theorem fbankPart_some (s : List Nat) (b : Int) (hb : 0 ≤ b) :
    fbankPart (some s) b =
      match expand s [b, 1024, 64] with
      | none => .error .expandError
      | some r => .ok r := by
  unfold fbankPart
  dsimp only
  cases hx : expand s [b, 1024, 64] with
  | none => rfl
  | some r =>
    have hh := expand_head s b [1024, 64] r hb hx
    simp [hh, Int.toNat_of_nonneg hb]

theorem wavePart_some (s : List Nat) (b : Int) (hb : 0 ≤ b) :
    wavePart (some s) b =
      match expand s [b, -1] with
      | none => .error .expandError
      | some r => .ok r := by
  unfold wavePart
  dsimp only
  cases hx : expand s [b, -1] with
  | none => rfl
  | some r =>
    have hh := expand_head s b [-1] r hb hx
    simp [hh, Int.toNat_of_nonneg hb]

theorem fbankPart_head (fb : Option (List Nat)) (b : Int) (r : List Nat)
    (hb : 0 ≤ b) (h : fbankPart fb b = .ok r) : r.head? = some b.toNat := by
  cases fb with
  | none =>
    rw [fbankPart_none b hb] at h
    cases h
    rfl
  | some s =>
    rw [fbankPart_some s b hb] at h
    cases hx : expand s [b, 1024, 64] with
    | none => rw [hx] at h; cases h
    | some r2 =>
      rw [hx] at h
      cases h
      exact expand_head s b [1024, 64] r hb hx

theorem wavePart_head (wv : Option (List Nat)) (b : Int) (r : List Nat)
    (hb : 0 ≤ b) (h : wavePart wv b = .ok r) : r.head? = some b.toNat := by
  cases wv with
  | none =>
    rw [wavePart_none b hb] at h
    cases h
    rfl
  | some s =>
    rw [wavePart_some s b hb] at h
    cases hx : expand s [b, -1] with
    | none => rw [hx] at h; cases h
    | some r2 =>
      rw [hx] at h
      cases h
      exact expand_head s b [-1] r hb hx

theorem make_batch_eval (text : String) (wv fb : Option (List Nat)) (b : Int)
    (hb : 0 ≤ b) :
    (make_batch_for_text_to_audio text wv fb b).2 =
      match fbankPart fb b with
      | .error e => .error e
      | .ok fbv =>
        match wavePart wv b with
        | .error e => .error e
        | .ok wvv =>
          .ok { fbank := fbv, stft := [b.toNat, 1024, 512],
                fname := List.replicate b.toNat "", waveform := wvv,
                text := List.replicate b.toNat text } := by
  simp only [make_batch_for_text_to_audio, stftPart_nonneg b hb]

theorem fbankPart_cases (fb : Option (List Nat)) (b : Int) (hb : 0 ≤ b) :
    (fbankBroadcastable fb b = true ∧ ∃ r, fbankPart fb b = .ok r) ∨
    (fbankBroadcastable fb b = false ∧ fbankPart fb b = .error .expandError) := by
  cases fb with
  | none => exact Or.inl ⟨rfl, _, fbankPart_none b hb⟩
  | some s =>
    rw [fbankPart_some s b hb]
    cases hx : expand s [b, 1024, 64] with
    | none =>
      right
      simp [fbankBroadcastable, hx]
    | some r =>
      left
      simp [fbankBroadcastable, hx]

theorem wavePart_cases (wv : Option (List Nat)) (b : Int) (hb : 0 ≤ b) :
    (waveBroadcastable wv b = true ∧ ∃ r, wavePart wv b = .ok r) ∨
    (waveBroadcastable wv b = false ∧ wavePart wv b = .error .expandError) := by
  cases wv with
  | none => exact Or.inl ⟨rfl, _, wavePart_none b hb⟩
  | some s =>
    rw [wavePart_some s b hb]
    cases hx : expand s [b, -1] with
    | none =>
      right
      simp [waveBroadcastable, hx]
    | some r =>
      left
      simp [waveBroadcastable, hx]

/-- C7 counterexample: `duration_to_latent_t_size` is `int(d * 25.6)`,
which truncates toward zero, so at the duration `d = -1/2` it returns
`-12`, while `floor(d * 25.6) = -13`; the claim's "for every duration"
fails on negative durations. -/
theorem duration_to_latent_t_size_ne_floor_at_neg :
    duration_to_latent_t_size (-1/2) ≠ ⌊((-1/2 : ℚ) * 25.6)⌋ := by
  have h1 : duration_to_latent_t_size (-1/2) = -12 := by
    unfold duration_to_latent_t_size pyTrunc
    rw [if_neg (by norm_num), show ((-1/2 : ℚ) * 25.6) = -(64/5) by norm_num,
      Int.ceil_neg]
    norm_num
  have h2 : (⌊((-1/2 : ℚ) * 25.6)⌋ : Int) = -13 := by norm_num
  rw [h1, h2]
  decide

/-- C7 amended: for every non-negative duration `d`,
`duration_to_latent_t_size d = floor(d * 25.6)` (in particular `10 ↦
256`); for negative durations the `int` conversion truncates toward
zero, giving the ceiling instead. -/
theorem duration_to_latent_t_size_floor (d : ℚ) :
    (0 ≤ d → duration_to_latent_t_size d = ⌊d * 25.6⌋) ∧
    (d < 0 → duration_to_latent_t_size d = ⌈d * 25.6⌉) ∧
    duration_to_latent_t_size 10 = 256 := by
  refine ⟨fun h => ?_, fun h => ?_, ?_⟩
  · exact pyTrunc_of_nonneg _ (mul_nonneg h (by norm_num))
  · exact pyTrunc_of_neg _ (mul_neg_of_neg_of_pos h (by norm_num))
  · unfold duration_to_latent_t_size pyTrunc
    rw [if_pos (by norm_num)]
    norm_num

/-- Witness for the amended C7 theorem at the concrete duration `3`. -/
theorem duration_to_latent_t_size_floor_witness :
    duration_to_latent_t_size 3 = ⌊(3 : ℚ) * 25.6⌋ :=
  (duration_to_latent_t_size_floor 3).1 (by norm_num)

/-- C8: `set_cond_text` sets the conditioning key to `"text"` and the
embed mode to `"text"`, `set_cond_audio` sets them to `"waveform"` and
`"audio"`, and both leave every other field of the model (and of the
conditioning-stage submodel) unchanged.  Both are total functions, so
they always succeed. -/
theorem set_cond_fields {γ δ : Type} (m : Model γ δ) :
    (set_cond_text m).cond_stage_key = "text" ∧
    (set_cond_text m).cond_stage_model.embed_mode = "text" ∧
    (set_cond_text m).latent_t_size = m.latent_t_size ∧
    (set_cond_text m).model_rest = m.model_rest ∧
    (set_cond_text m).cond_stage_model.csm_rest = m.cond_stage_model.csm_rest ∧
    (set_cond_audio m).cond_stage_key = "waveform" ∧
    (set_cond_audio m).cond_stage_model.embed_mode = "audio" ∧
    (set_cond_audio m).latent_t_size = m.latent_t_size ∧
    (set_cond_audio m).model_rest = m.model_rest ∧
    (set_cond_audio m).cond_stage_model.csm_rest = m.cond_stage_model.csm_rest :=
  ⟨rfl, rfl, rfl, rfl, rfl, rfl, rfl, rfl, rfl, rfl⟩

/-- C10: the `config` parameter of `text_to_audio` is never read, so two
calls differing only in `config` return the same model state and the
same trace of external calls. -/
theorem text_to_audio_config_unused {γ δ : Type} (m : Model γ δ) (text : String)
    (path : Option String) (shape : List Nat) (seed steps : Int) (dur : ℚ)
    (b : Int) (gs : ℚ) (nc : Int) (c1 c2 : Option String) :
    text_to_audio m text path shape seed steps dur b gs nc c1 =
      text_to_audio m text path shape seed steps dur b gs nc c2 := rfl

/-- C5: in `style_transfer` the unconditional conditioning passed to the
sampler's `decode` is `None` exactly when `guidance_scale = 1.0`; for
every other guidance scale it is computed (from the batchsize) and is
what `decode` receives. -/
theorem style_transfer_uncond {γ δ : Type} (m : Model γ δ) (text path : String)
    (ts : ℚ) (seed : Int) (dur : ℚ) (b : Int) (gs : ℚ) (steps : Int)
    (cfg : Option String) :
    ((style_transfer m text path ts seed dur b gs steps cfg).2.decode_uc = none
      ↔ gs = 1) ∧
    ((style_transfer m text path ts seed dur b gs steps cfg).2.decode_uc = some b
      ↔ ¬ gs = 1) ∧
    (style_transfer m text path ts seed dur b gs steps cfg).2.uc =
      (style_transfer m text path ts seed dur b gs steps cfg).2.decode_uc := by
  by_cases h : gs = 1 <;> simp [style_transfer, h]

/-- C1 counterexample: `style_transfer` is called with a reference audio
file (its audio path argument is mandatory), yet it puts the model in
text conditioning mode, not audio conditioning mode, contradicting the
claim that all three entry points select the conditioning mode from the
presence of a reference audio file. -/
theorem style_transfer_text_cond_despite_audio :
    (style_transfer M0 "a dog barking" "ref.wav" (1/2) 42 10 1 (5/2) 200
        none).1.cond_stage_model.embed_mode = "text" ∧
    (style_transfer M0 "a dog barking" "ref.wav" (1/2) 42 10 1 (5/2) 200
        none).1.cond_stage_key = "text" ∧
    ("text" : String) ≠ "audio" ∧ ("text" : String) ≠ "waveform" :=
  ⟨rfl, rfl, by decide, by decide⟩

/-- C2 counterexample: an `fbank` of shape `(2, 1024, 64)` cannot be
broadcast to batchsize `3`, and the failure is the `expand` error raised
by the broadcast itself, not an assertion error: the `assert` on line 29
of the source sits after the `expand` and can never see a mismatched
leading dimension. -/
theorem make_batch_mismatch_not_assert :
    (make_batch_for_text_to_audio "t" none (some [2, 1024, 64]) 3).2 =
      .error .expandError ∧
    PipeError.expandError ≠ PipeError.assertError := ⟨rfl, by decide⟩

/-- C4 counterexample: with the negative batchsize `-1` the builder does
not merely warn and continue: `torch.zeros((-1, 1024, 64))` raises, so
the call fails (the warning is still printed first). -/
theorem make_batch_neg_batchsize_raises :
    (make_batch_for_text_to_audio "t" none none (-1)).2 = .error .negDimError ∧
    (make_batch_for_text_to_audio "t" none none (-1)).1 = true := ⟨rfl, rfl⟩

/-- C2 amended: for every non-negative batchsize, a provided optional
input that cannot be broadcast to the batchsize makes the builder fail
with the broadcast (`expand`) error, not the assertion; every error the
builder raises is the broadcast error, and the builder succeeds exactly
when every provided optional input is broadcastable (after a successful
broadcast the leading dimension always equals the batchsize, so the
assertion after the broadcast never fires). -/
theorem make_batch_error_class (text : String) (wv fb : Option (List Nat))
    (b : Int) (hb : 0 ≤ b) :
    ((make_batch_for_text_to_audio text wv fb b).2 ≠ .error .assertError) ∧
    (∀ e, (make_batch_for_text_to_audio text wv fb b).2 = .error e →
      e = .expandError) ∧
    ((∃ batch, (make_batch_for_text_to_audio text wv fb b).2 = .ok batch) ↔
      (fbankBroadcastable fb b = true ∧ waveBroadcastable wv b = true)) := by
  have heval := make_batch_eval text wv fb b hb
  rcases fbankPart_cases fb b hb with ⟨hfB, r1, hf⟩ | ⟨hfB, hf⟩
  · rcases wavePart_cases wv b hb with ⟨hwB, r2, hw⟩ | ⟨hwB, hw⟩
    · rw [hf, hw] at heval
      refine ⟨by rw [heval]; simp, fun e he => ?_, ?_⟩
      · rw [heval] at he
        simp at he
      · exact ⟨fun _ => ⟨hfB, hwB⟩, fun _ => ⟨_, heval⟩⟩
    · rw [hf, hw] at heval
      refine ⟨by rw [heval]; simp, fun e he => ?_, ?_⟩
      · rw [heval] at he
        simp at he
        exact he.symm
      · constructor
        · rintro ⟨batch, hbatch⟩
          rw [heval] at hbatch
          simp at hbatch
        · rintro ⟨-, h2⟩
          rw [h2] at hwB
          cases hwB
  · rw [hf] at heval
    refine ⟨by rw [heval]; simp, fun e he => ?_, ?_⟩
    · rw [heval] at he
      simp at he
      exact he.symm
    · constructor
      · rintro ⟨batch, hbatch⟩
        rw [heval] at hbatch
        simp at hbatch
      · rintro ⟨h1, -⟩
        rw [h1] at hfB
        cases hfB

/-- Witness for the amended C2 theorem: a broadcastable `fbank` of shape
`(1024, 64)` with batchsize 2 never produces an assertion error. -/
theorem make_batch_error_class_witness :
    (make_batch_for_text_to_audio "x" none (some [1024, 64]) 2).2 ≠
      .error .assertError :=
  (make_batch_error_class "x" none (some [1024, 64]) 2 (by norm_num)).1

/-- C3: whenever the builder returns a batch (any batchsize ≥ 1, any
text, optional inputs present or not), both list-typed fields have
length equal to the batchsize and all three tensors have leading
dimension equal to the batchsize. -/
theorem make_batch_sizes (text : String) (wv fb : Option (List Nat)) (b : Int)
    (hb : 1 ≤ b) (batch : Batch)
    (h : (make_batch_for_text_to_audio text wv fb b).2 = .ok batch) :
    batch.text.length = b.toNat ∧ batch.fname.length = b.toNat ∧
    batch.fbank.head? = some b.toNat ∧ batch.stft.head? = some b.toNat ∧
    batch.waveform.head? = some b.toNat := by
  have hb0 : (0 : Int) ≤ b := le_trans (by norm_num) hb
  rw [make_batch_eval text wv fb b hb0] at h
  cases hfb : fbankPart fb b with
  | error e =>
    rw [hfb] at h
    simp at h
  | ok fbv =>
    rw [hfb] at h
    cases hwv : wavePart wv b with
    | error e =>
      rw [hwv] at h
      simp at h
    | ok wvv =>
      rw [hwv] at h
      simp only [Except.ok.injEq] at h
      subst h
      refine ⟨by simp, by simp, ?_, rfl, ?_⟩
      · exact fbankPart_head fb b fbv hb0 hfb
      · exact wavePart_head wv b wvv hb0 hwv

/-- Witness for the C3 theorem at batchsize 2 with no optional inputs. -/
theorem make_batch_sizes_witness :
    ({ fbank := [2, 1024, 64], stft := [2, 1024, 512], fname := ["", ""],
       waveform := [2, 160000], text := ["hi", "hi"] } : Batch).text.length
        = (2 : Int).toNat ∧
    ({ fbank := [2, 1024, 64], stft := [2, 1024, 512], fname := ["", ""],
       waveform := [2, 160000], text := ["hi", "hi"] } : Batch).fname.length
        = (2 : Int).toNat ∧
    ({ fbank := [2, 1024, 64], stft := [2, 1024, 512], fname := ["", ""],
       waveform := [2, 160000], text := ["hi", "hi"] } : Batch).fbank.head?
        = some (2 : Int).toNat ∧
    ({ fbank := [2, 1024, 64], stft := [2, 1024, 512], fname := ["", ""],
       waveform := [2, 160000], text := ["hi", "hi"] } : Batch).stft.head?
        = some (2 : Int).toNat ∧
    ({ fbank := [2, 1024, 64], stft := [2, 1024, 512], fname := ["", ""],
       waveform := [2, 160000], text := ["hi", "hi"] } : Batch).waveform.head?
        = some (2 : Int).toNat :=
  make_batch_sizes "hi" none none 2 (by norm_num) _ rfl

/-- C4 amended: for every batchsize < 1 the builder prints the warning
and keeps the originally supplied value (no clamping); with batchsize 0
it completes, returning empty lists and placeholders of leading
dimension 0, but with a negative batchsize the first placeholder
allocation (`torch.zeros`) raises, so the call does not complete. -/
theorem make_batch_small_batch (text : String) (b : Int) (hb : b < 1) :
    (∀ wv fb, (make_batch_for_text_to_audio text wv fb b).1 = true) ∧
    (b = 0 → (make_batch_for_text_to_audio text none none b).2 =
      .ok { fbank := [0, 1024, 64], stft := [0, 1024, 512], fname := [],
            waveform := [0, 160000], text := [] }) ∧
    (b < 0 → (make_batch_for_text_to_audio text none none b).2 =
      .error .negDimError) := by
  refine ⟨fun wv fb => ?_, fun h0 => ?_, fun hneg => ?_⟩
  · simp [make_batch_for_text_to_audio, hb]
  · subst h0
    rfl
  · simp [make_batch_for_text_to_audio, fbankPart, zerosShape_neg_head b hneg]

/-- Witness for the amended C4 theorem at batchsize 0: the warning fires
and the builder completes with the supplied (unclamped) batchsize. -/
theorem make_batch_small_batch_witness :
    (make_batch_for_text_to_audio "x" none none 0).2 =
      .ok { fbank := [0, 1024, 64], stft := [0, 1024, 512], fname := [],
            waveform := [0, 160000], text := [] } :=
  (make_batch_small_batch "x" 0 (by norm_num)).2.1 rfl

/-- C9 counterexample: two `super_resolution_and_inpainting` calls that
differ only in `duration` (10 vs 20) forward different `duration` values
to the external `generate_sample_masked`, so the duration argument does
not affect only the mel-spectrogram target length. -/
theorem super_res_duration_reaches_sampler :
    ((super_resolution_and_inpainting M0 "t" (some "a.wav") [1024, 64] 42 200 10 1
        (5/2) 3 (1/10, 3/20) (1, 1) none).2.map (fun tr => tr.sample.duration)
      = .ok 10) ∧
    ((super_resolution_and_inpainting M0 "t" (some "a.wav") [1024, 64] 42 200 20 1
        (5/2) 3 (1/10, 3/20) (1, 1) none).2.map (fun tr => tr.sample.duration)
      = .ok 20) ∧
    ((10 : ℚ) ≠ 20) := ⟨rfl, rfl, by norm_num⟩

/-- C6: for non-negative `transfer_strength` and `ddim_steps`, the
starting timestep computed by `style_transfer` and handed to both
`stochastic_encode` (replicated over the batch) and `decode` is
`floor(transfer_strength * ddim_steps)`; strength 0 gives timestep 0 and
strength 1 gives `ddim_steps`. -/
theorem style_transfer_t_enc {γ δ : Type} (m : Model γ δ) (text path : String)
    (ts : ℚ) (seed : Int) (dur : ℚ) (b : Int) (gs : ℚ) (steps : Int)
    (cfg : Option String) (hts : 0 ≤ ts) (hsteps : 0 ≤ steps) :
    (style_transfer m text path ts seed dur b gs steps cfg).2.decode_t =
      ⌊ts * (steps : ℚ)⌋ ∧
    (style_transfer m text path ts seed dur b gs steps cfg).2.encode_ts =
      List.replicate b.toNat ⌊ts * (steps : ℚ)⌋ ∧
    (ts = 0 →
      (style_transfer m text path ts seed dur b gs steps cfg).2.decode_t = 0) ∧
    (ts = 1 →
      (style_transfer m text path ts seed dur b gs steps cfg).2.decode_t = steps) := by
  have hnn : (0 : ℚ) ≤ ts * (steps : ℚ) :=
    mul_nonneg hts (by exact_mod_cast hsteps)
  have hpt : pyTrunc (ts * (steps : ℚ)) = ⌊ts * (steps : ℚ)⌋ :=
    pyTrunc_of_nonneg _ hnn
  refine ⟨?_, ?_, fun h0 => ?_, fun h1 => ?_⟩
  · simp [style_transfer, hpt]
  · simp [style_transfer, hpt]
  · subst h0
    simp [style_transfer, pyTrunc]
  · subst h1
    simp only [style_transfer, hpt]
    rw [one_mul, Int.floor_intCast]

/-- Witness for the C6 theorem at strength 1/2 with 200 steps. -/
theorem style_transfer_t_enc_witness :
    (style_transfer M0 "t" "p" (1/2) 42 10 1 (5/2) 200 none).2.decode_t =
      ⌊(1/2 : ℚ) * ((200 : Int) : ℚ)⌋ :=
  (style_transfer_t_enc M0 "t" "p" (1/2) 42 10 1 (5/2) 200 none
    (by norm_num) (by norm_num)).1

/-- C1 amended: only `text_to_audio` selects the conditioning mode from
the presence of a reference audio file (audio conditioning when a path
is supplied, text conditioning when not); `style_transfer` and
`super_resolution_and_inpainting` always put the model in text
conditioning mode, regardless of the audio path they receive. -/
theorem cond_mode_by_entry {γ δ : Type} (m : Model γ δ) (text : String)
    (path : Option String) (pathS : String) (ts : ℚ) (shape melShape : List Nat)
    (seed steps : Int) (dur : ℚ) (b : Int) (gs : ℚ) (nc : Int)
    (tm fm : ℚ × ℚ) (cfg : Option String) :
    (∀ tr, (text_to_audio m text path shape seed steps dur b gs nc cfg).2 = .ok tr →
      (text_to_audio m text path shape seed steps dur b gs nc
          cfg).1.cond_stage_model.embed_mode =
        (if path.isSome then "audio" else "text") ∧
      (text_to_audio m text path shape seed steps dur b gs nc cfg).1.cond_stage_key =
        (if path.isSome then "waveform" else "text")) ∧
    ((style_transfer m text pathS ts seed dur b gs steps
        cfg).1.cond_stage_model.embed_mode = "text" ∧
      (style_transfer m text pathS ts seed dur b gs steps cfg).1.cond_stage_key =
        "text") ∧
    (∀ tr, (super_resolution_and_inpainting m text path melShape seed steps dur b
        gs nc tm fm cfg).2 = .ok tr →
      (super_resolution_and_inpainting m text path melShape seed steps dur b gs nc
          tm fm cfg).1.cond_stage_model.embed_mode = "text" ∧
      (super_resolution_and_inpainting m text path melShape seed steps dur b gs nc
          tm fm cfg).1.cond_stage_key = "text") := by
  refine ⟨fun tr htr => ?_, ?_, fun tr htr => ?_⟩
  · simp only [text_to_audio] at htr ⊢
    cases hmb : (make_batch_for_text_to_audio text (path.map fun _ => shape) none
        b).2 with
    | error e =>
      rw [hmb] at htr
      simp at htr
    | ok batch =>
      cases path with
      | none => simp [set_cond_text]
      | some p => simp [set_cond_audio]
  · simp [style_transfer, set_cond_text]
  · simp only [super_resolution_and_inpainting] at htr ⊢
    cases hmb : (make_batch_for_text_to_audio text none (some (1 :: melShape))
        b).2 with
    | error e =>
      rw [hmb] at htr
      simp at htr
    | ok batch =>
      simp [set_cond_text]

/-- Witness for the amended C1 theorem: `text_to_audio` with an audio
path present sets audio conditioning. -/
theorem cond_mode_by_entry_witness :
    (text_to_audio M0 "hi" (some "a.wav") [1, 160000] 42 200 10 1 (5/2) 3
        none).1.cond_stage_model.embed_mode = "audio" ∧
    (text_to_audio M0 "hi" (some "a.wav") [1, 160000] 42 200 10 1 (5/2) 3
        none).1.cond_stage_key = "waveform" :=
  (cond_mode_by_entry M0 "hi" (some "a.wav") "p" (1/2) [1, 160000] [1024, 64]
    42 200 10 1 (5/2) 3 (1/10, 3/20) (1, 1) none).1 _ rfl

/-- C9 amended: `super_resolution_and_inpainting` leaves the model's
`latent_t_size` unchanged for every input (its model state does not
depend on `duration` at all), while `text_to_audio` and `style_transfer`
set it to `duration_to_latent_t_size duration`; within
`super_resolution_and_inpainting` the `duration` argument affects only
the mel-spectrogram target length and the `duration` value forwarded to
the `generate_sample_masked` call. -/
theorem latent_t_size_effects {γ δ : Type} (m : Model γ δ) (text : String)
    (path : Option String) (pathS : String) (ts : ℚ) (shape melShape : List Nat)
    (seed steps : Int) (dur dur2 : ℚ) (b : Int) (gs : ℚ) (nc : Int)
    (tm fm : ℚ × ℚ) (cfg : Option String) :
    (super_resolution_and_inpainting m text path melShape seed steps dur b gs nc
        tm fm cfg).1.latent_t_size = m.latent_t_size ∧
    (super_resolution_and_inpainting m text path melShape seed steps dur b gs nc
        tm fm cfg).1 =
      (super_resolution_and_inpainting m text path melShape seed steps dur2 b gs
        nc tm fm cfg).1 ∧
    (∀ tr, (text_to_audio m text path shape seed steps dur b gs nc cfg).2 = .ok tr →
      (text_to_audio m text path shape seed steps dur b gs nc cfg).1.latent_t_size =
        duration_to_latent_t_size dur) ∧
    ((style_transfer m text pathS ts seed dur b gs steps cfg).1.latent_t_size =
      duration_to_latent_t_size dur) ∧
    (∀ tr, (super_resolution_and_inpainting m text path melShape seed steps dur b
        gs nc tm fm cfg).2 = .ok tr →
      tr.melTarget = pyTrunc (dur * 102.4) ∧ tr.sample.duration = dur ∧
      (super_resolution_and_inpainting m text path melShape seed steps dur2 b gs
          nc tm fm cfg).2 =
        .ok { seed := tr.seed, melTarget := pyTrunc (dur2 * 102.4),
              sample := { tr.sample with duration := dur2 } }) := by
  refine ⟨?_, ?_, fun tr htr => ?_, ?_, fun tr htr => ?_⟩
  · simp only [super_resolution_and_inpainting]
    cases hmb : (make_batch_for_text_to_audio text none (some (1 :: melShape))
        b).2 with
    | error e => rfl
    | ok batch => simp [set_cond_text]
  · simp only [super_resolution_and_inpainting]
    cases hmb : (make_batch_for_text_to_audio text none (some (1 :: melShape))
        b).2 with
    | error e => rfl
    | ok batch => rfl
  · simp only [text_to_audio] at htr ⊢
    cases hmb : (make_batch_for_text_to_audio text (path.map fun _ => shape) none
        b).2 with
    | error e =>
      rw [hmb] at htr
      simp at htr
    | ok batch =>
      cases path with
      | none => simp [set_cond_text]
      | some p => simp [set_cond_audio]
  · simp [style_transfer]
  · simp only [super_resolution_and_inpainting] at htr ⊢
    cases hmb : (make_batch_for_text_to_audio text none (some (1 :: melShape))
        b).2 with
    | error e =>
      rw [hmb] at htr
      simp at htr
    | ok batch =>
      rw [hmb] at htr
      simp only [Except.ok.injEq] at htr
      subst htr
      exact ⟨rfl, rfl, rfl⟩

/-- Witness for the amended C9 theorem: a completed `text_to_audio` call
has set `latent_t_size` from the duration. -/
theorem latent_t_size_effects_witness :
    (text_to_audio M0 "t" (some "a.wav") [1, 160000] 42 200 10 1 (5/2) 3
        none).1.latent_t_size = duration_to_latent_t_size 10 :=
  (latent_t_size_effects M0 "t" (some "a.wav") "p" (1/2) [1, 160000] [1024, 64]
    42 200 10 20 1 (5/2) 3 (1/10, 3/20) (1, 1) none).2.2.1 _ rfl

end AudioLDM
